import Mathlib

/-!
Verification development for the walletgate/eudi-sdk TypeScript client.

The embedding below translates the executable core of src/index.ts and
src/schemas/index.ts into Lean:
- WebhookVerifier: WalletGate.verifyWebhook (HMAC check, constant-time
  comparison gating, freshness window);
- RequestExecutor: WalletGate.request (header construction, response
  classification, rate-limit callback, retry/backoff loop) and the delay
  helper;
- the zod CreateSessionSchema input validator.

JavaScript strings handed to Buffer.from are modelled as their UTF-8 byte
lists; JSON values as an inductive JsonVal; JavaScript numbers as rationals
(NaN appears only through parseInt and is modelled by Option); the ambient
Node crypto module, the fetch outcomes, Math.random and the abort signal
are explicit parameters.
-/

namespace WG

/-- UTF-8 encoding of one character, as Buffer.from produces for it. -/
def utf8EncodeChar (c : Char) : List Nat :=
  let n := c.toNat
  if n < 128 then [n]
  else if n < 2048 then [192 + n / 64, 128 + n % 64]
  else if n < 65536 then [224 + n / 4096, 128 + (n / 64) % 64, 128 + n % 64]
  else [240 + n / 262144, 128 + (n / 4096) % 64, 128 + (n / 64) % 64, 128 + n % 64]

/-- The byte list of Buffer.from(s) for a JavaScript string s (UTF-8). -/
def bufferFrom (s : String) : List Nat :=
  s.data.foldr (fun c acc => utf8EncodeChar c ++ acc) []

/-- Digits of a JavaScript parseInt radix-10 parse: the leading run of
decimal digits, or none when that run is empty (parseInt returns NaN). -/
def parseDigits (cs : List Char) : Option Nat :=
  let ds := cs.takeWhile Char.isDigit
  if ds.isEmpty then none
  else some (ds.foldl (fun acc c => acc * 10 + (c.toNat - 48)) 0)

/-- JavaScript parseInt(s, 10): skip leading whitespace, optional sign,
then the leading decimal digits; none models a NaN result. -/
def parseIntJS (s : String) : Option Int :=
  let cs := s.data.dropWhile fun c => c == ' ' || c == '\t' || c == '\n' || c == '\r'
  match cs with
  | '-' :: rest => (parseDigits rest).map fun n => -(n : Int)
  | '+' :: rest => (parseDigits rest).map fun n => (n : Int)
  | _ => (parseDigits cs).map fun n => (n : Int)

/-- The NodeCryptoLike module injected through globalThis.__WG_NODE_CRYPTO:
an HMAC-SHA256 base64 digest primitive and a constant-time comparator on
byte buffers. The source obtains both from the ambient environment, so the
embedding takes them as parameters. -/
structure NodeCryptoLike where
  hmacSha256Base64 : String → String → String
  timingSafeEqual : List Nat → List Nat → Bool

/-- Comparison of a possibly-NaN JavaScript number (none is NaN) with a
number: any comparison against NaN is false. -/
def jsLe (a : Option Int) (b : Int) : Bool :=
  match a with
  | none => false
  | some x => x ≤ b

/-- Result of verifyWebhook together with whether the constant-time
comparator was invoked on the way. -/
structure VerifyResult where
  result : Bool
  comparatorCalled : Bool
  deriving DecidableEq, Repr

/-- WalletGate.verifyWebhook (src/index.ts lines 76-97), for a Node
environment where the crypto module is available. Computes
expected = base64(HMAC-SHA256(secret, rawBody)); a byte-length mismatch
between signature and expected returns false before the constant-time
comparator runs; an unequal comparison returns false; otherwise
age = Date.now() - parseInt(timestamp, 10) must satisfy age <= 5 * 60000,
with a NaN age (unparseable timestamp) failing the comparison. -/
def verifyWebhook (nodeCrypto : NodeCryptoLike) (nowMs : Int)
    (rawBody signature secret timestamp : String) : VerifyResult :=
  let expected := nodeCrypto.hmacSha256Base64 secret rawBody
  let a := bufferFrom signature
  let b := bufferFrom expected
  if a.length ≠ b.length then ⟨false, false⟩
  else
    let ok := nodeCrypto.timingSafeEqual a b
    if !ok then ⟨false, true⟩
    else
      let age := (parseIntJS timestamp).map fun t => nowMs - t
      ⟨jsLe age (5 * 60000), true⟩

/-- A JSON value as produced by response.json(); numbers are rationals. -/
inductive JsonVal where
  | str : String → JsonVal
  | num : ℚ → JsonVal
  | bool : Bool → JsonVal
  | null : JsonVal
  | obj : List (String × JsonVal) → JsonVal
  | arr : List JsonVal → JsonVal

/-- Property access on a JSON value: some for an own key of an object,
none (undefined) otherwise. -/
def getField (j : JsonVal) (k : String) : Option JsonVal :=
  match j with
  | .obj fields => fields.lookup k
  | _ => none

/-- JavaScript truthiness of a JSON value. -/
def jsTruthy : JsonVal → Bool
  | .str s => s ≠ ""
  | .num q => q ≠ 0
  | .bool b => b
  | .null => false
  | .obj _ => true
  | .arr _ => true

/-- JavaScript string conversion of a primitive JSON value, as used when a
value is interpolated into an error message. -/
def jsToString : JsonVal → String
  | .str s => s
  | .num q => toString q
  | .bool b => if b then "true" else "false"
  | .null => "null"
  | .obj _ => "[object Object]"
  | .arr _ => ""

/-- Truthiness of an optional number field (undefined is falsy, 0 is falsy). -/
def qTruthy : Option ℚ → Bool
  | some q => q ≠ 0
  | none => false

/-- The RateLimitInfo record built from a 429 body (src/index.ts lines
121-127): message falls back to a default when the field is absent or
falsy; the numeric fields are kept only when the body holds a number there;
upgradeUrl only when it holds a string. -/
structure RateLimitInfo where
  message : JsonVal
  retryAfterSeconds : Option ℚ
  monthlyLimit : Option ℚ
  dailyLimit : Option ℚ
  upgradeUrl : Option String

/-- Extraction of a numeric field guarded by typeof v === 'number'. -/
def getNumField (b : JsonVal) (k : String) : Option ℚ :=
  match getField b k with
  | some (.num q) => some q
  | _ => none

/-- Extraction of a string field guarded by typeof v === 'string'. -/
def getStrField (b : JsonVal) (k : String) : Option String :=
  match getField b k with
  | some (.str s) => some s
  | _ => none

/-- The info object passed to onRateLimit, from the parsed 429 body. -/
def mkRateLimitInfo (b : JsonVal) : RateLimitInfo where
  message :=
    match getField b "message" with
    | some m => if jsTruthy m then m else .str "Rate limit exceeded"
    | none => .str "Rate limit exceeded"
  retryAfterSeconds := getNumField b "retryAfterSeconds"
  monthlyLimit := getNumField b "monthlyLimit"
  dailyLimit := getNumField b "dailyLimit"
  upgradeUrl := getStrField b "upgradeUrl"

/-- The message of the NoRetryError raised for a rate limit (src/index.ts
lines 129-134): the details list collects the truthy numeric fields and the
hint appends the upgrade URL when present and non-empty. -/
def rateLimitMsg (info : RateLimitInfo) : String :=
  let details :=
    (match info.retryAfterSeconds with
     | some q => if q ≠ 0 then
         (let c : Int := Int.ceil q
          [s!"retry after ~{c}s"]) else []
     | none => []) ++
    (match info.monthlyLimit with
     | some q => if q ≠ 0 then [s!"plan limit: {q}/mo"] else []
     | none => []) ++
    (match info.dailyLimit with
     | some q => if q ≠ 0 then [s!"daily cap: {q}/24h"] else []
     | none => [])
  let hint :=
    match info.upgradeUrl with
    | some u => if u ≠ "" then " — upgrade: " ++ u else ""
    | none => ""
  let joined := String.intercalate ", " details
  "Rate limit exceeded (" ++ joined ++ ")" ++ hint

/-- Fallback message extraction for 4xx and 5xx branches, modelling
(err && err.message) || defaultMsg over the parsed body (none when
safeJson returned null). -/
def errMessageOr (body : Option JsonVal) (defaultMsg : String) : String :=
  match body with
  | some b =>
    if jsTruthy b then
      match getField b "message" with
      | some m => if jsTruthy m then jsToString m else defaultMsg
      | none => defaultMsg
    else defaultMsg
  | none => defaultMsg

/-- A concrete crypto module for evaluating verifyWebhook on closed inputs:
the digest is a function of secret and body, and the comparator decides
byte-list equality (as timingSafeEqual does on equal-length buffers). -/
def testCrypto : NodeCryptoLike where
  hmacSha256Base64 := fun secret body => "mac:" ++ secret ++ ":" ++ body
  timingSafeEqual := fun a b => a == b

/-- Client configuration after the constructor defaults (src/index.ts lines
47-59): retry settings are fully resolved and the rate-limit callback may be
absent. The numeric retry fields are JavaScript numbers, hence rationals. -/
structure ClientCfg where
  apiKey : String
  baseUrl : String
  maxRetries : Nat
  baseDelayMs : ℚ
  factor : ℚ
  jitter : Bool
  hasOnRateLimit : Bool

/-- Outcome of one fetch call: a network-level rejection (including the
rejection produced when the abort signal fires), or a response carrying a
status and the body as parsed by safeJson (none when parsing failed, which
safeJson turns into null). -/
inductive FetchOutcome where
  | exception : FetchOutcome
  | response : Nat → Option JsonVal → FetchOutcome

/-- The environment one logical request runs against: the outcome of the
k-th fetch call, whether controller.signal.aborted is set when the k-th
catch block runs, and whether the onRateLimit callback throws when invoked. -/
structure Env where
  outcome : Nat → FetchOutcome
  abortedAt : Nat → Bool
  cbThrows : Bool

/-- Errors thrown inside the request loop: NoRetryError for 4xx branches,
a plain Error for 5xx branches, and the network-level exception. -/
inductive ReqError where
  | noRetry : String → ReqError
  | server : String → ReqError
  | network : ReqError

/-- The e instanceof NoRetryError test at src/index.ts line 145, negated:
true for the errors that reach the retry decision. -/
def isRetryableErr : ReqError → Bool
  | .noRetry _ => false
  | .server _ => true
  | .network => true

/-- What one attempt of the try block produces: its result (parsed body or
thrown error) and the onRateLimit invocations it performed. -/
structure AttemptResult where
  res : Except ReqError (Option JsonVal)
  rl : List RateLimitInfo

/-- The err.code === 'RATE_LIMIT_EXCEEDED' test on a parsed error body. -/
def codeIsRateLimit (b : JsonVal) : Bool :=
  match getField b "code" with
  | some (.str s) => s == "RATE_LIMIT_EXCEEDED"
  | _ => false

/-- One iteration of the try block at src/index.ts lines 106-143: a network
exception propagates to the catch; a response with ok status (200-299)
returns the safeJson body; a 4xx response parses the error body, invoking
onRateLimit (exceptions from it swallowed) and throwing NoRetryError when
code is RATE_LIMIT_EXCEEDED, throwing a plain NoRetryError otherwise; any
other non-ok status throws a retryable server error. -/
def classifyAttempt (cfg : ClientCfg) (env : Env) (attempt : Nat) : AttemptResult :=
  match env.outcome attempt with
  | .exception => ⟨.error .network, []⟩
  | .response status body =>
    if 200 ≤ status ∧ status ≤ 299 then ⟨.ok body, []⟩
    else if 400 ≤ status ∧ status < 500 then
      match body with
      | some b =>
        if jsTruthy b && codeIsRateLimit b then
          let info := mkRateLimitInfo b
          let rl := if cfg.hasOnRateLimit then [info] else []
          let _cb : Except Unit Unit :=
            if cfg.hasOnRateLimit ∧ env.cbThrows then .error () else .ok ()
          ⟨.error (.noRetry (rateLimitMsg info)), rl⟩
      else ⟨.error (.noRetry (errMessageOr body s!"Request failed with status {status}")), []⟩
      | none => ⟨.error (.noRetry (errMessageOr body s!"Request failed with status {status}")), []⟩
    else ⟨.error (.server (errMessageOr body s!"Server error ({status})")), []⟩

/-- State of one logical request call after it finishes: number of fetch
calls made, the value returned or error propagated, the onRateLimit
invocations in order, and the backoff arguments passed to delay in order. -/
structure ExecResult where
  calls : Nat
  result : Except ReqError (Option JsonVal)
  rl : List RateLimitInfo
  delays : List ℚ

/-- An attempt whose failure (or success) ends the loop. -/
def finishAttempt (a : AttemptResult) : ExecResult :=
  ⟨1, a.res, a.rl, []⟩

/-- The retry loop at src/index.ts lines 105-151, parameterised by the
remaining retry budget (maxRetries - attempt, so the guard
attempt >= maxRetries of line 146 is the remaining = 0 case). On a
retryable error with budget left and the abort signal clear, it sleeps for
baseDelayMs * factor ^ attempt (line 147) and re-enters with attempt + 1. -/
def requestLoop (cfg : ClientCfg) (env : Env) : Nat → Nat → ExecResult
  | 0, attempt => finishAttempt (classifyAttempt cfg env attempt)
  | remaining + 1, attempt =>
    let a := classifyAttempt cfg env attempt
    match a.res with
    | .ok _ => finishAttempt a
    | .error e =>
      if isRetryableErr e = false then finishAttempt a
      else if env.abortedAt attempt then finishAttempt a
      else
        let d := cfg.baseDelayMs * cfg.factor ^ attempt
        let rest := requestLoop cfg env remaining (attempt + 1)
        ⟨1 + rest.calls, rest.result, a.rl ++ rest.rl, d :: rest.delays⟩

/-- One logical request: the loop entered at attempt 0 with the full retry
budget. -/
def execRequest (cfg : ClientCfg) (env : Env) : ExecResult :=
  requestLoop cfg env cfg.maxRetries 0

/-- The delay helper (src/index.ts lines 166-169): the jitter term is
Math.floor(Math.random() * (ms / 2)) when jitter is on and 0 otherwise;
rand stands for the Math.random() sample in [0, 1). The value returned is
the total time slept, ms + jitterMs. -/
def totalDelayMs (ms : ℚ) (jitter : Bool) (rand : ℚ) : ℚ :=
  let jitterMs : ℤ := if jitter then Int.floor (rand * (ms / 2)) else 0
  ms + jitterMs

/-- The backoff argument passed to delay at src/index.ts line 147:
baseDelayMs * factor ^ attempt. -/
def backoffMs (cfg : ClientCfg) (attempt : Nat) : ℚ :=
  cfg.baseDelayMs * cfg.factor ^ attempt

/-- Object-spread update of an assoc list: an existing key is overwritten
in place, a new key is appended, as in a JavaScript object literal. -/
def setKey (m : List (String × String)) (k v : String) : List (String × String) :=
  if m.any fun p => p.1 == k then
    m.map fun p => if p.1 == k then (k, v) else p
  else m ++ [(k, v)]

/-- Header lookup by exact name. -/
def lookupHeader (hs : List (String × String)) (k : String) : Option String :=
  (hs.find? fun p => p.1 == k).map fun p => p.2

/-- The headers object built at src/index.ts lines 109-113: Authorization
and Content-Type literals, then the spread of options.headers on top. -/
def buildHeaders (apiKey : String) (optHeaders : List (String × String)) :
    List (String × String) :=
  optHeaders.foldl (fun m p => setKey m p.1 p.2)
    [("Authorization", "Bearer " ++ apiKey), ("Content-Type", "application/json")]

/-- The fetch call as assembled by request: absolute URL, method, headers
and optional body. -/
structure FetchRequest where
  url : String
  method : String
  headers : List (String × String)
  body : Option String

/-- Request assembly from src/index.ts lines 107-115: URL is baseUrl ++
path and the headers come from buildHeaders. -/
def buildFetchRequest (cfg : ClientCfg) (path method : String) (body : Option String)
    (optHeaders : List (String × String)) : FetchRequest :=
  ⟨cfg.baseUrl ++ path, method, buildHeaders cfg.apiKey optHeaders, body⟩

/-- startVerification (src/index.ts lines 61-67): a POST with the
serialised input as body and no caller-supplied headers. -/
def startVerificationRequest (cfg : ClientCfg) (inputJson : String) : FetchRequest :=
  buildFetchRequest cfg "/v1/verify/sessions" "POST" (some inputJson) []

/-- getResult (src/index.ts lines 69-74): a GET with no body and no
caller-supplied headers. -/
def getResultRequest (cfg : ClientCfg) (sessionId : String) : FetchRequest :=
  buildFetchRequest cfg ("/v1/verify/sessions/" ++ sessionId) "GET" none []

/-- Acceptance of one check by VerificationCheckSchema
(src/schemas/index.ts lines 7-10): an object whose type field is one of the
three enum strings and whose value field, when present, is a number or a
string; no numeric range is imposed on value. -/
def checkSchemaAccepts (j : JsonVal) : Bool :=
  match j with
  | .obj _ =>
    (match getField j "type" with
     | some (.str t) =>
       t == "age_over" || t == "residency_eu" || t == "identity_verified"
     | _ => false) &&
    (match getField j "value" with
     | none => true
     | some (.num _) => true
     | some (.str _) => true
     | some _ => false)
  | _ => false

/-- Acceptance of an optional string field validated by a predicate (the
z.string().url().optional() fields). The URL validity test of zod is taken
as a parameter. -/
def optUrlOk (urlOk : String → Bool) (j : JsonVal) (k : String) : Bool :=
  match getField j k with
  | none => true
  | some (.str s) => urlOk s
  | some _ => false

/-- Acceptance by CreateSessionSchema (src/schemas/index.ts lines 12-20):
checks is an array of 1 to 10 valid checks; the four URL fields are
optional strings passing the URL test; metadata is an optional object;
enableAI is an optional boolean. -/
def createSessionAccepts (urlOk : String → Bool) (j : JsonVal) : Bool :=
  match j with
  | .obj _ =>
    (match getField j "checks" with
     | some (.arr cs) =>
       cs.all checkSchemaAccepts && decide (1 ≤ cs.length) && decide (cs.length ≤ 10)
     | _ => false) &&
    optUrlOk urlOk j "redirectUrl" &&
    optUrlOk urlOk j "successUrl" &&
    optUrlOk urlOk j "cancelUrl" &&
    optUrlOk urlOk j "webhookUrl" &&
    (match getField j "metadata" with
     | none => true
     | some (.obj _) => true
     | some _ => false) &&
    (match getField j "enableAI" with
     | none => true
     | some (.bool _) => true
     | some _ => false)
  | _ => false

/-- A session input with a single age_over check carrying the given value. -/
def sessionWithAge (v : JsonVal) : JsonVal :=
  .obj [("checks", .arr [.obj [("type", .str "age_over"), ("value", v)]])]

/-- A session input with n identical residency checks. -/
def sessionWithNChecks (n : Nat) : JsonVal :=
  .obj [("checks", .arr (List.replicate n (.obj [("type", .str "residency_eu")])))]

/-- A configuration with the constructor defaults of src/index.ts lines
47-59 (maxRetries 0, baseDelayMs 200, factor 2, jitter on, no callback). -/
def cfgDefault : ClientCfg :=
  ⟨"key", "https://api.walletgate.app", 0, 200, 2, true, false⟩

/-- A configuration with three retries allowed and jitter off. -/
def cfgRetry3 : ClientCfg :=
  ⟨"key", "https://api.walletgate.app", 3, 10, 2, false, false⟩

/-- A configuration with one retry allowed. -/
def cfgRetry1 : ClientCfg :=
  ⟨"key", "https://api.walletgate.app", 1, 10, 2, false, false⟩

/-- A configuration with two retries and the rate-limit callback set. -/
def cfgWithCallback : ClientCfg :=
  ⟨"key", "https://api.walletgate.app", 2, 10, 2, false, true⟩

/-- The environment of a timed-out call: the timer fired, so the fetch
rejects and controller.signal.aborted is already true in the catch block. -/
def envTimeout : Env :=
  ⟨fun _ => .exception, fun _ => true, false⟩

/-- A network failure without any abort: the fetch rejects but the timer
has not fired. -/
def envNetworkFail : Env :=
  ⟨fun _ => .exception, fun _ => false, false⟩

/-- An endpoint that permanently answers 500 with an unparseable body. -/
def env5xx : Env :=
  ⟨fun _ => .response 500 none, fun _ => false, false⟩

/-- An endpoint answering 404 with a null body. -/
def env404 : Env :=
  ⟨fun _ => .response 404 none, fun _ => false, false⟩

/-- A rate-limited 429 body carrying every optional field. -/
def rlFull (msg : String) (ras ml dl : ℚ) (url : String) : JsonVal :=
  .obj [("code", .str "RATE_LIMIT_EXCEEDED"), ("message", .str msg),
        ("retryAfterSeconds", .num ras), ("monthlyLimit", .num ml),
        ("dailyLimit", .num dl), ("upgradeUrl", .str url)]

/-- A rate-limited 429 body carrying only the code field. -/
def rlBare : JsonVal :=
  .obj [("code", .str "RATE_LIMIT_EXCEEDED")]

/-- An endpoint answering 429 with the given body; cbT states whether the
caller-supplied onRateLimit callback throws when invoked. -/
def envRateLimit (b : JsonVal) (cbT : Bool) : Env :=
  ⟨fun _ => .response 429 (some b), fun _ => false, cbT⟩

end WG

/-- C1 counterexample: with a matching signature and a timestamp 400000 ms
in the future of the current time (beyond the 5-minute window on the future
side), verifyWebhook returns true, because age = now - timestamp is
negative and the code only checks age <= 300000. This refutes the part of
the claim stating that a future timestamp beyond the window fails. -/
theorem WG.verifyWebhook_future_timestamp_passes :
    (400000 : Int) - (0 : Int) > 300000 ∧
    (WG.verifyWebhook WG.testCrypto 0 "body"
      (WG.testCrypto.hmacSha256Base64 "secret" "body") "secret" "400000").result = true := by
  decide

/-- C1 amended: when the signature equals the recomputed digest and the
comparator behaves as a (reflexive) equality test, verifyWebhook returns
true exactly when nowMs - timestampMs <= 300000; in particular a difference
of exactly 300000 passes, a larger (too-old) difference fails, and every
future timestamp (negative difference) passes. -/
theorem WG.verifyWebhook_freshness_iff (nodeCrypto : WG.NodeCryptoLike) (nowMs t : Int)
    (rawBody signature secret timestamp : String)
    (hsig : signature = nodeCrypto.hmacSha256Base64 secret rawBody)
    (hcmp : ∀ a : List Nat, nodeCrypto.timingSafeEqual a a = true)
    (hts : WG.parseIntJS timestamp = some t) :
    (WG.verifyWebhook nodeCrypto nowMs rawBody signature secret timestamp).result = true ↔
      nowMs - t ≤ 300000 := by
  unfold WG.verifyWebhook
  subst hsig
  simp [hcmp, hts, WG.jsLe]

/-- C1 witness: a concrete matching-signature call at a difference of
exactly 300000 ms, shown fresh through the freshness theorem. -/
theorem WG.verifyWebhook_freshness_iff_witness :
    (WG.verifyWebhook WG.testCrypto 300000 "body"
      (WG.testCrypto.hmacSha256Base64 "secret" "body") "secret" "0").result = true :=
  (WG.verifyWebhook_freshness_iff WG.testCrypto 300000 0 "body"
    (WG.testCrypto.hmacSha256Base64 "secret" "body") "secret" "0"
    rfl (fun a => by simp [WG.testCrypto]) (by decide)).mpr (by decide)

/-- C8: when the UTF-8 byte length of the provided signature differs from
that of the recomputed base64 digest, verifyWebhook returns false and the
constant-time comparator is never invoked; hence the comparator runs only
on equal-length inputs. -/
theorem WG.length_mismatch_skips_comparator (nodeCrypto : WG.NodeCryptoLike) (nowMs : Int)
    (rawBody signature secret timestamp : String)
    (hlen : (WG.bufferFrom signature).length ≠
      (WG.bufferFrom (nodeCrypto.hmacSha256Base64 secret rawBody)).length) :
    (WG.verifyWebhook nodeCrypto nowMs rawBody signature secret timestamp).result = false ∧
    (WG.verifyWebhook nodeCrypto nowMs rawBody signature secret timestamp).comparatorCalled
      = false := by
  unfold WG.verifyWebhook
  simp [hlen]

/-- C8 witness: a one-byte signature against a longer digest returns false
without calling the comparator. -/
theorem WG.length_mismatch_skips_comparator_witness :
    (WG.verifyWebhook WG.testCrypto 0 "body" "x" "secret" "0").result = false ∧
    (WG.verifyWebhook WG.testCrypto 0 "body" "x" "secret" "0").comparatorCalled = false :=
  WG.length_mismatch_skips_comparator WG.testCrypto 0 "body" "x" "secret" "0" (by decide)

/-- C10: with the crypto primitive available and a matching signature, a
timestamp that parses to NaN makes age = now - NaN a NaN, the comparison
age <= 300000 false, and verifyWebhook returns false instead of throwing. -/
theorem WG.nan_timestamp_returns_false (nodeCrypto : WG.NodeCryptoLike) (nowMs : Int)
    (rawBody signature secret timestamp : String)
    (hsig : signature = nodeCrypto.hmacSha256Base64 secret rawBody)
    (hts : WG.parseIntJS timestamp = none) :
    (WG.verifyWebhook nodeCrypto nowMs rawBody signature secret timestamp).result = false := by
  unfold WG.verifyWebhook
  subst hsig
  by_cases hok : nodeCrypto.timingSafeEqual
      (WG.bufferFrom (nodeCrypto.hmacSha256Base64 secret rawBody))
      (WG.bufferFrom (nodeCrypto.hmacSha256Base64 secret rawBody)) = true <;>
    simp [hts, hok, WG.jsLe]

/-- C10 witness: a matching signature with the unparseable timestamp "abc"
returns false. -/
theorem WG.nan_timestamp_returns_false_witness :
    (WG.verifyWebhook WG.testCrypto 0 "body"
      (WG.testCrypto.hmacSha256Base64 "secret" "body") "secret" "abc").result = false :=
  WG.nan_timestamp_returns_false WG.testCrypto 0 "body"
    (WG.testCrypto.hmacSha256Base64 "secret" "body") "secret" "abc" rfl (by decide)

/-- Every run of the retry loop makes at least one fetch call. -/
theorem WG.requestLoop_calls_pos (cfg : WG.ClientCfg) (env : WG.Env) :
    ∀ r a, 1 ≤ (WG.requestLoop cfg env r a).calls := by
  intro r
  induction r with
  | zero => intro a; simp [WG.requestLoop, WG.finishAttempt]
  | succ n ih =>
    intro a
    simp only [WG.requestLoop]
    split
    · simp [WG.finishAttempt]
    · split
      · simp [WG.finishAttempt]
      · split
        · simp [WG.finishAttempt]
        · simp

/-- The retry loop with budget r makes at most r + 1 fetch calls. -/
theorem WG.requestLoop_calls_le (cfg : WG.ClientCfg) (env : WG.Env) :
    ∀ r a, (WG.requestLoop cfg env r a).calls ≤ r + 1 := by
  intro r
  induction r with
  | zero => intro a; simp [WG.requestLoop, WG.finishAttempt]
  | succ n ih =>
    intro a
    simp only [WG.requestLoop]
    split
    · simp [WG.finishAttempt]
    · split
      · simp [WG.finishAttempt]
      · split
        · simp [WG.finishAttempt]
        · have := ih (a + 1)
          simp
          omega

/-- A response with a 5xx status classifies as a retryable server error and
performs no rate-limit callback. -/
theorem WG.classifyAttempt_server (cfg : WG.ClientCfg) (env : WG.Env) (k s : Nat)
    (b : Option WG.JsonVal) (h : env.outcome k = .response s b)
    (h5 : 500 ≤ s) (h6 : s < 600) :
    (∃ m, (WG.classifyAttempt cfg env k).res = .error (.server m)) ∧
    (WG.classifyAttempt cfg env k).rl = [] := by
  unfold WG.classifyAttempt
  rw [h]
  have h1 : ¬(200 ≤ s ∧ s ≤ 299) := by omega
  have h2 : ¬(400 ≤ s ∧ s < 500) := by omega
  simp [h1, h2]

/-- When every attempt classifies as a retryable server error and the abort
signal never fires, the loop with budget r makes exactly r + 1 calls and
propagates a server error. -/
theorem WG.requestLoop_all_server (cfg : WG.ClientCfg) (env : WG.Env)
    (hsrv : ∀ k, ∃ m, (WG.classifyAttempt cfg env k).res = .error (.server m))
    (hab : ∀ k, env.abortedAt k = false) :
    ∀ r a, (WG.requestLoop cfg env r a).calls = r + 1 ∧
      ∃ m, (WG.requestLoop cfg env r a).result = .error (.server m) := by
  intro r
  induction r with
  | zero =>
    intro a
    obtain ⟨m, hm⟩ := hsrv a
    refine ⟨by simp [WG.requestLoop, WG.finishAttempt], m, ?_⟩
    simp [WG.requestLoop, WG.finishAttempt, hm]
  | succ n ih =>
    intro a
    obtain ⟨m, hm⟩ := hsrv a
    obtain ⟨hc, m2, hres2⟩ := ih (a + 1)
    simp only [WG.requestLoop, hm, WG.isRetryableErr, hab a]
    simp only [Bool.false_eq_true, if_false, ite_false]
    refine ⟨by simp [hc]; omega, m2, by simp [hres2]⟩

/-- C4: against an endpoint that permanently returns a 5xx status (and
with the abort signal never firing), a logical call with maxRetries = N
makes exactly N + 1 fetch calls and then propagates the server error; and
for every configuration and environment whatsoever the loop makes at most
maxRetries + 1 calls, so it always terminates. -/
theorem WG.permanent_5xx_exact_calls (cfg : WG.ClientCfg) (env : WG.Env)
    (h5xx : ∀ k, ∃ s b, env.outcome k = .response s b ∧ 500 ≤ s ∧ s < 600)
    (hab : ∀ k, env.abortedAt k = false) :
    (WG.execRequest cfg env).calls = cfg.maxRetries + 1 ∧
    (∃ m, (WG.execRequest cfg env).result = Except.error (WG.ReqError.server m)) ∧
    ∀ (cfg2 : WG.ClientCfg) (env2 : WG.Env),
      (WG.execRequest cfg2 env2).calls ≤ cfg2.maxRetries + 1 := by
  have hsrv : ∀ k, ∃ m, (WG.classifyAttempt cfg env k).res = .error (.server m) := by
    intro k
    obtain ⟨s, b, ho, hs5, hs6⟩ := h5xx k
    exact (WG.classifyAttempt_server cfg env k s b ho hs5 hs6).1
  obtain ⟨hc, hres⟩ := WG.requestLoop_all_server cfg env hsrv hab cfg.maxRetries 0
  exact ⟨hc, hres, fun cfg2 env2 => WG.requestLoop_calls_le cfg2 env2 cfg2.maxRetries 0⟩

/-- C4 witness: with maxRetries = 3 against a permanent 500 endpoint,
exactly 4 fetch calls are made. -/
theorem WG.permanent_5xx_exact_calls_witness :
    (WG.execRequest WG.cfgRetry3 WG.env5xx).calls = 4 :=
  (WG.permanent_5xx_exact_calls WG.cfgRetry3 WG.env5xx
    (fun _ => ⟨500, none, rfl, by omega, by omega⟩) (fun _ => rfl)).1

/-- A response with a 4xx status classifies as a non-retryable
NoRetryError in every sub-branch (rate limit or not). -/
theorem WG.classifyAttempt_4xx (cfg : WG.ClientCfg) (env : WG.Env) (k s : Nat)
    (b : Option WG.JsonVal) (h : env.outcome k = .response s b)
    (h4 : 400 ≤ s) (h5 : s < 500) :
    ∃ m, (WG.classifyAttempt cfg env k).res = .error (.noRetry m) := by
  unfold WG.classifyAttempt
  rw [h]
  have h1 : ¬(200 ≤ s ∧ s ≤ 299) := by omega
  have h2 : 400 ≤ s ∧ s < 500 := ⟨h4, h5⟩
  simp only [h1, h2, if_false, if_true, ite_false, ite_true]
  cases b with
  | none => exact ⟨_, rfl⟩
  | some bb =>
    by_cases hb : (WG.jsTruthy bb && WG.codeIsRateLimit bb) = true
    · simp [hb]
    · simp [hb]

/-- C5: a 4xx response on the first attempt makes exactly one fetch call,
for every maxRetries, and the propagated error is the non-retryable
NoRetryError, so no retry is consumed. -/
theorem WG.client_error_single_call (cfg : WG.ClientCfg) (env : WG.Env) (s : Nat)
    (b : Option WG.JsonVal) (h : env.outcome 0 = .response s b)
    (h4 : 400 ≤ s) (h5 : s < 500) :
    (WG.execRequest cfg env).calls = 1 ∧
    ∃ m, (WG.execRequest cfg env).result = Except.error (WG.ReqError.noRetry m) := by
  obtain ⟨m, hm⟩ := WG.classifyAttempt_4xx cfg env 0 s b h h4 h5
  unfold WG.execRequest
  cases hr : cfg.maxRetries with
  | zero =>
    refine ⟨by simp [WG.requestLoop, WG.finishAttempt], m, ?_⟩
    simp [WG.requestLoop, WG.finishAttempt, hm]
  | succ n =>
    simp only [WG.requestLoop, hm, WG.isRetryableErr]
    simp [WG.finishAttempt, hm]

/-- C5 witness: a 404 with maxRetries = 3 makes exactly one fetch call and
fails with a NoRetryError. -/
theorem WG.client_error_single_call_witness :
    (WG.execRequest WG.cfgRetry3 WG.env404).calls = 1 ∧
    ∃ m, (WG.execRequest WG.cfgRetry3 WG.env404).result =
      Except.error (WG.ReqError.noRetry m) :=
  WG.client_error_single_call WG.cfgRetry3 WG.env404 404 none rfl (by omega) (by omega)

/-- C2 counterexample: with maxRetries = 3 (attempts remain) and a
timed-out first attempt — the cancellation timer fired, aborting the fetch,
so the catch block sees the abort signal set — the call makes exactly one
fetch call and never sleeps for a backoff delay: the timed-out attempt is
not retried, refuting the claim. -/
theorem WG.timeout_not_retried :
    WG.cfgRetry3.maxRetries = 3 ∧
    WG.envTimeout.abortedAt 0 = true ∧
    (WG.execRequest WG.cfgRetry3 WG.envTimeout).calls = 1 ∧
    (WG.execRequest WG.cfgRetry3 WG.envTimeout).delays = [] :=
  ⟨rfl, rfl, rfl, rfl⟩

/-- C2 amended: a retryable failure — a 5xx response or a network-level
exception — at any 0-indexed attempt k where the abort signal has not
fired and the attempt count is below maxRetries (the remaining retry
budget r + 1 at attempt k is positive) sleeps for the computed backoff
delay baseDelayMs * factor ^ k and retries with the attempt count
incremented to k + 1 (one further fetch call at least, so at least two
calls in total from attempt k); a timed-out attempt, in contrast, has the
abort signal set and is never retried. -/
theorem WG.retryable_failure_retried (cfg : WG.ClientCfg) (env : WG.Env) (e : WG.ReqError)
    (k r : Nat)
    (hres : (WG.classifyAttempt cfg env k).res = .error e)
    (hret : WG.isRetryableErr e = true)
    (hab : env.abortedAt k = false) :
    WG.requestLoop cfg env (r + 1) k =
      ⟨1 + (WG.requestLoop cfg env r (k + 1)).calls,
       (WG.requestLoop cfg env r (k + 1)).result,
       (WG.classifyAttempt cfg env k).rl ++ (WG.requestLoop cfg env r (k + 1)).rl,
       cfg.baseDelayMs * cfg.factor ^ k :: (WG.requestLoop cfg env r (k + 1)).delays⟩ ∧
    2 ≤ (WG.requestLoop cfg env (r + 1) k).calls := by
  have hstep : WG.requestLoop cfg env (r + 1) k =
      ⟨1 + (WG.requestLoop cfg env r (k + 1)).calls,
       (WG.requestLoop cfg env r (k + 1)).result,
       (WG.classifyAttempt cfg env k).rl ++ (WG.requestLoop cfg env r (k + 1)).rl,
       cfg.baseDelayMs * cfg.factor ^ k :: (WG.requestLoop cfg env r (k + 1)).delays⟩ := by
    simp only [WG.requestLoop, hres, hret, hab]
    simp only [Bool.true_eq_false, if_false, ite_false, Bool.false_eq_true]
  have hrest := WG.requestLoop_calls_pos cfg env r (k + 1)
  exact ⟨hstep, by rw [hstep]; simp; omega⟩

/-- C2 witness: a network-level failure with no abort at attempt k = 1
with remaining budget 2 (as under maxRetries = 3) sleeps
baseDelayMs * factor ^ 1 and retries at attempt 2. -/
theorem WG.retryable_failure_retried_witness :
    WG.requestLoop WG.cfgRetry3 WG.envNetworkFail 2 1 =
      ⟨1 + (WG.requestLoop WG.cfgRetry3 WG.envNetworkFail 1 2).calls,
       (WG.requestLoop WG.cfgRetry3 WG.envNetworkFail 1 2).result,
       (WG.classifyAttempt WG.cfgRetry3 WG.envNetworkFail 1).rl ++
         (WG.requestLoop WG.cfgRetry3 WG.envNetworkFail 1 2).rl,
       WG.cfgRetry3.baseDelayMs * WG.cfgRetry3.factor ^ 1 ::
         (WG.requestLoop WG.cfgRetry3 WG.envNetworkFail 1 2).delays⟩ ∧
    2 ≤ (WG.requestLoop WG.cfgRetry3 WG.envNetworkFail 2 1).calls :=
  WG.retryable_failure_retried WG.cfgRetry3 WG.envNetworkFail WG.ReqError.network
    1 1 rfl rfl rfl

/-- A 429 whose body carries code RATE_LIMIT_EXCEEDED classifies as a
NoRetryError carrying the rate-limit message, invoking the callback (when
configured) with the extracted info; the throwing or not of that callback
(env.cbThrows) plays no role, since its exception is swallowed. -/
theorem WG.classifyAttempt_rateLimit (cfg : WG.ClientCfg) (fs : List (String × WG.JsonVal))
    (cbT : Bool) (k : Nat) (hcode : WG.codeIsRateLimit (.obj fs) = true) :
    WG.classifyAttempt cfg (WG.envRateLimit (.obj fs) cbT) k =
      ⟨.error (.noRetry (WG.rateLimitMsg (WG.mkRateLimitInfo (.obj fs)))),
       if cfg.hasOnRateLimit then [WG.mkRateLimitInfo (.obj fs)] else []⟩ := by
  unfold WG.classifyAttempt WG.envRateLimit
  simp [hcode, WG.jsTruthy]

/-- A first attempt that throws a NoRetryError ends the loop at once, for
any remaining retry budget. -/
theorem WG.requestLoop_noRetry (cfg : WG.ClientCfg) (env : WG.Env) (r a : Nat) (m : String)
    (h : (WG.classifyAttempt cfg env a).res = .error (.noRetry m)) :
    WG.requestLoop cfg env r a = WG.finishAttempt (WG.classifyAttempt cfg env a) := by
  cases r with
  | zero => rfl
  | succ n => simp [WG.requestLoop, h, WG.isRetryableErr, WG.finishAttempt]

/-- The info extracted from a body carrying every field: each field passes
through unmodified (the message must be truthy to escape the default). -/
theorem WG.mkRateLimitInfo_rlFull (msg : String) (hmsg : msg ≠ "")
    (ras ml dl : ℚ) (url : String) :
    WG.mkRateLimitInfo (WG.rlFull msg ras ml dl url) =
      ⟨.str msg, some ras, some ml, some dl, some url⟩ := by
  unfold WG.mkRateLimitInfo WG.rlFull
  simp [WG.getField, WG.getNumField, WG.getStrField, WG.jsTruthy, List.lookup, hmsg]

/-- C7: a 429 response whose body has code RATE_LIMIT_EXCEEDED invokes the
configured onRateLimit callback exactly once for that attempt; every
provided field of the body is passed through unmodified and omitted fields
surface as none; and whether the callback throws or not, the error raised
is the same original rate-limit NoRetryError. -/
theorem WG.rate_limit_callback_once (cfg : WG.ClientCfg) (hcb : cfg.hasOnRateLimit = true)
    (msg : String) (hmsg : msg ≠ "") (ras ml dl : ℚ) (url : String) (cbT : Bool) :
    (WG.execRequest cfg (WG.envRateLimit (WG.rlFull msg ras ml dl url) cbT)).rl =
      [⟨.str msg, some ras, some ml, some dl, some url⟩] ∧
    (WG.execRequest cfg (WG.envRateLimit WG.rlBare cbT)).rl =
      [⟨.str "Rate limit exceeded", none, none, none, none⟩] ∧
    (WG.execRequest cfg (WG.envRateLimit (WG.rlFull msg ras ml dl url) true)).result =
      (WG.execRequest cfg (WG.envRateLimit (WG.rlFull msg ras ml dl url) false)).result ∧
    ∃ m, (WG.execRequest cfg (WG.envRateLimit (WG.rlFull msg ras ml dl url) cbT)).result =
      Except.error (WG.ReqError.noRetry m) := by
  have hcodeF : WG.codeIsRateLimit (WG.rlFull msg ras ml dl url) = true := by
    simp [WG.codeIsRateLimit, WG.rlFull, WG.getField, List.lookup]
  have hcodeB : WG.codeIsRateLimit WG.rlBare = true := by
    simp [WG.codeIsRateLimit, WG.rlBare, WG.getField, List.lookup]
  have hclsF : ∀ b : Bool, WG.classifyAttempt cfg (WG.envRateLimit (WG.rlFull msg ras ml dl url) b) 0 =
      ⟨.error (.noRetry (WG.rateLimitMsg (WG.mkRateLimitInfo (WG.rlFull msg ras ml dl url)))),
       [WG.mkRateLimitInfo (WG.rlFull msg ras ml dl url)]⟩ := by
    intro b
    rw [show WG.rlFull msg ras ml dl url = WG.JsonVal.obj
      [("code", .str "RATE_LIMIT_EXCEEDED"), ("message", .str msg),
       ("retryAfterSeconds", .num ras), ("monthlyLimit", .num ml),
       ("dailyLimit", .num dl), ("upgradeUrl", .str url)] from rfl] at hcodeF ⊢
    rw [WG.classifyAttempt_rateLimit cfg _ b 0 hcodeF, hcb]
    simp
  have hclsB : WG.classifyAttempt cfg (WG.envRateLimit WG.rlBare cbT) 0 =
      ⟨.error (.noRetry (WG.rateLimitMsg (WG.mkRateLimitInfo WG.rlBare))),
       [WG.mkRateLimitInfo WG.rlBare]⟩ := by
    rw [show WG.rlBare = WG.JsonVal.obj [("code", .str "RATE_LIMIT_EXCEEDED")] from rfl]
      at hcodeB ⊢
    rw [WG.classifyAttempt_rateLimit cfg _ cbT 0 hcodeB, hcb]
    simp
  have hrunF : ∀ b : Bool, WG.execRequest cfg (WG.envRateLimit (WG.rlFull msg ras ml dl url) b) =
      WG.finishAttempt (WG.classifyAttempt cfg (WG.envRateLimit (WG.rlFull msg ras ml dl url) b) 0) := by
    intro b
    exact WG.requestLoop_noRetry cfg _ cfg.maxRetries 0 _ (by rw [hclsF b])
  have hrunB : WG.execRequest cfg (WG.envRateLimit WG.rlBare cbT) =
      WG.finishAttempt (WG.classifyAttempt cfg (WG.envRateLimit WG.rlBare cbT) 0) :=
    WG.requestLoop_noRetry cfg _ cfg.maxRetries 0 _ (by rw [hclsB])
  refine ⟨?_, ?_, ?_, ?_⟩
  · rw [hrunF cbT, hclsF cbT, WG.mkRateLimitInfo_rlFull msg hmsg ras ml dl url]
    rfl
  · rw [hrunB, hclsB]
    rfl
  · rw [hrunF true, hrunF false, hclsF true, hclsF false]
  · exact ⟨_, by rw [hrunF cbT, hclsF cbT]; rfl⟩

/-- C7 witness: a concrete 429 with every field provided, a throwing
callback and maxRetries = 2: the callback sees the fields unmodified and
the raised error is the rate-limit NoRetryError. -/
theorem WG.rate_limit_callback_once_witness :
    (WG.execRequest WG.cfgWithCallback (WG.envRateLimit (WG.rlFull "Slow down" 42 100 10 "https://walletgate.app/upgrade") true)).rl =
      [⟨.str "Slow down", some 42, some 100, some 10, some "https://walletgate.app/upgrade"⟩] ∧
    (WG.execRequest WG.cfgWithCallback (WG.envRateLimit WG.rlBare true)).rl =
      [⟨.str "Rate limit exceeded", none, none, none, none⟩] ∧
    (WG.execRequest WG.cfgWithCallback (WG.envRateLimit (WG.rlFull "Slow down" 42 100 10 "https://walletgate.app/upgrade") true)).result =
      (WG.execRequest WG.cfgWithCallback (WG.envRateLimit (WG.rlFull "Slow down" 42 100 10 "https://walletgate.app/upgrade") false)).result ∧
    ∃ m, (WG.execRequest WG.cfgWithCallback (WG.envRateLimit (WG.rlFull "Slow down" 42 100 10 "https://walletgate.app/upgrade") true)).result =
      Except.error (WG.ReqError.noRetry m) :=
  WG.rate_limit_callback_once WG.cfgWithCallback rfl "Slow down" (by decide) 42 100 10
    "https://walletgate.app/upgrade" true

/-- C6: the backoff delay before the retry following 0-indexed attempt k
equals baseDelayMs * factor ^ k exactly when jitter is disabled; when
jitter is enabled it equals that value plus an integer in [0, delay / 2),
and every integer in that interval is attained by some random sample, so
the jitter ranges exactly over the integers of [0, delay / 2). -/
theorem WG.backoff_delay_formula (cfg : WG.ClientCfg) (k : Nat) (r : ℚ)
    (h0 : 0 ≤ r) (h1 : r < 1)
    (hbase : 0 < cfg.baseDelayMs) (hfac : 1 ≤ cfg.factor) :
    WG.totalDelayMs (WG.backoffMs cfg k) false r = cfg.baseDelayMs * cfg.factor ^ k ∧
    (∃ j : ℤ, WG.totalDelayMs (WG.backoffMs cfg k) true r
        = cfg.baseDelayMs * cfg.factor ^ k + j ∧
      0 ≤ j ∧ (j : ℚ) < cfg.baseDelayMs * cfg.factor ^ k / 2) ∧
    ∀ j : ℤ, 0 ≤ j → (j : ℚ) < cfg.baseDelayMs * cfg.factor ^ k / 2 →
      ∃ r2 : ℚ, 0 ≤ r2 ∧ r2 < 1 ∧
        WG.totalDelayMs (WG.backoffMs cfg k) true r2
          = cfg.baseDelayMs * cfg.factor ^ k + j := by
  have hd : 0 < WG.backoffMs cfg k := by
    have hfk : (0 : ℚ) < cfg.factor ^ k :=
      pow_pos (lt_of_lt_of_le one_pos hfac) k
    exact mul_pos hbase hfk
  have hd2 : 0 < WG.backoffMs cfg k / 2 := half_pos hd
  refine ⟨by simp [WG.totalDelayMs, WG.backoffMs], ?_, ?_⟩
  · refine ⟨Int.floor (r * (WG.backoffMs cfg k / 2)), ?_, ?_, ?_⟩
    · simp [WG.totalDelayMs, WG.backoffMs]
    · exact Int.floor_nonneg.mpr (mul_nonneg h0 (le_of_lt hd2))
    · calc ((Int.floor (r * (WG.backoffMs cfg k / 2)) : ℚ))
          ≤ r * (WG.backoffMs cfg k / 2) := Int.floor_le _
        _ < 1 * (WG.backoffMs cfg k / 2) := by
            exact mul_lt_mul_of_pos_right h1 hd2
        _ = cfg.baseDelayMs * cfg.factor ^ k / 2 := by
            rw [one_mul, WG.backoffMs]
  · intro j hj0 hj2
    refine ⟨(j : ℚ) / (WG.backoffMs cfg k / 2), ?_, ?_, ?_⟩
    · exact div_nonneg (by exact_mod_cast hj0) (le_of_lt hd2)
    · rw [div_lt_one hd2]
      exact lt_of_lt_of_eq hj2 (by rw [WG.backoffMs])
    · have hne : WG.backoffMs cfg k / 2 ≠ 0 := ne_of_gt hd2
      simp only [WG.totalDelayMs, if_true, ite_true]
      rw [div_mul_cancel₀ _ hne, Int.floor_intCast, WG.backoffMs]

/-- C6 witness: with baseDelayMs = 10, factor = 2, attempt k = 1, a random
sample of 1/2 satisfies the formula in both jitter modes and every integer
jitter below delay / 2 is attainable. -/
theorem WG.backoff_delay_formula_witness :
    WG.totalDelayMs (WG.backoffMs WG.cfgRetry3 1) false (1/2)
        = WG.cfgRetry3.baseDelayMs * WG.cfgRetry3.factor ^ 1 ∧
    (∃ j : ℤ, WG.totalDelayMs (WG.backoffMs WG.cfgRetry3 1) true (1/2)
        = WG.cfgRetry3.baseDelayMs * WG.cfgRetry3.factor ^ 1 + j ∧
      0 ≤ j ∧ (j : ℚ) < WG.cfgRetry3.baseDelayMs * WG.cfgRetry3.factor ^ 1 / 2) ∧
    ∀ j : ℤ, 0 ≤ j → (j : ℚ) < WG.cfgRetry3.baseDelayMs * WG.cfgRetry3.factor ^ 1 / 2 →
      ∃ r2 : ℚ, 0 ≤ r2 ∧ r2 < 1 ∧
        WG.totalDelayMs (WG.backoffMs WG.cfgRetry3 1) true r2
          = WG.cfgRetry3.baseDelayMs * WG.cfgRetry3.factor ^ 1 + j :=
  WG.backoff_delay_formula WG.cfgRetry3 1 (1/2) (by norm_num) (by norm_num)
    (by norm_num [WG.cfgRetry3]) (by norm_num [WG.cfgRetry3])

/-- C9 counterexample: the getResult request carries no body, yet its
headers still include Content-Type: application/json — the header is
attached unconditionally, refuting the only-when-a-body-is-present part of
the claim. -/
theorem WG.get_request_has_content_type :
    (WG.getResultRequest WG.cfgDefault "sess_1").method = "GET" ∧
    (WG.getResultRequest WG.cfgDefault "sess_1").body = none ∧
    WG.lookupHeader (WG.getResultRequest WG.cfgDefault "sess_1").headers "Content-Type" =
      some "application/json" :=
  ⟨rfl, rfl, rfl⟩

/-- C9 amended: every request built by the client (both SDK call sites pass
no caller headers) carries Authorization: Bearer apiKey, and carries
Content-Type: application/json unconditionally — whether or not a body is
present. -/
theorem WG.headers_always_present (cfg : WG.ClientCfg) (path method : String)
    (body : Option String) :
    WG.lookupHeader (WG.buildFetchRequest cfg path method body []).headers "Authorization" =
      some ("Bearer " ++ cfg.apiKey) ∧
    WG.lookupHeader (WG.buildFetchRequest cfg path method body []).headers "Content-Type" =
      some "application/json" :=
  ⟨rfl, rfl⟩

/-- C3 counterexample: a session whose single age_over check carries the
value 151 is accepted by CreateSessionSchema — the schema puts no numeric
range on value — refuting the claim that 151 is rejected. -/
theorem WG.schema_accepts_age_151 :
    WG.createSessionAccepts (fun _ => true) (WG.sessionWithAge (.num 151)) = true := by
  decide

/-- C3 amended: the validator accepts age values 0 and 150 — and equally
151 and -1, since no numeric bound is imposed on the value field; a check
list of exactly 10 entries is accepted and one of 11 is rejected. -/
theorem WG.schema_boundary_behavior :
    WG.createSessionAccepts (fun _ => true) (WG.sessionWithAge (.num 0)) = true ∧
    WG.createSessionAccepts (fun _ => true) (WG.sessionWithAge (.num 150)) = true ∧
    WG.createSessionAccepts (fun _ => true) (WG.sessionWithAge (.num 151)) = true ∧
    WG.createSessionAccepts (fun _ => true) (WG.sessionWithAge (.num (-1))) = true ∧
    WG.createSessionAccepts (fun _ => true) (WG.sessionWithNChecks 10) = true ∧
    WG.createSessionAccepts (fun _ => true) (WG.sessionWithNChecks 11) = false := by
  refine ⟨?_, ?_, ?_, ?_, ?_, ?_⟩ <;> decide
